import Mathlib

/-!
Verification development for the Tamil Nadu weather-alert service
(`src/server.js`): an Express app with three HTTP handlers
(`GET /api/weather`, `POST /api/subscribe`, `POST /api/unsubscribe`),
a Mongo-backed subscriber collection, and an hourly cron fan-out job.

The handlers are embedded as pure Lean functions over an explicit store
(a list of subscriber records).  The two external collaborators — the
Visual Crossing weather provider and the Twilio SMS provider — are
modelled as oracle parameters: the weather provider as a function from
the location query string to a fetch result (either a thrown transport
error or a returned JSON payload, possibly falsy or carrying an
`errorCode`), and the SMS send as a boolean outcome (delivered or a
thrown `DeliveryError`).  JavaScript falsiness of request-body strings
(absent → `undefined`, or the empty string) is modelled by `falsyStr`
over `Option String`.
-/

namespace TNWeather

/-- Subscriber record, after `subscriberSchema` in `server.js`:
`phoneNumber` (unique), `district`, `city`, `createdAt`. -/
structure Subscriber where
  phoneNumber : String
  district : String
  city : String
  createdAt : Nat
deriving DecidableEq, Repr

/-- The subscriber collection: the persistent store's single collection. -/
abbrev Store := List Subscriber

/-- `Subscriber.findOne({ phoneNumber })`: the first record whose phone
number matches, if any. -/
def findByPhone : Store → String → Option Subscriber
  | [], _ => none
  | s :: rest, p =>
    if s.phoneNumber == p then some s else findByPhone rest p

/-- `Subscriber.deleteOne({ phoneNumber })`: removes the first matching
record; returns the new store and the `deletedCount` (0 or 1). -/
def deleteOne (store : Store) (p : String) : Store × Nat :=
  match store with
  | [] => ([], 0)
  | s :: rest =>
    if s.phoneNumber == p then (rest, 1)
    else
      let r := deleteOne rest p
      (s :: r.1, r.2)

/-- JavaScript falsiness of a request-body / query-string field:
`undefined` (the field is absent) or the empty string. -/
def falsyStr (o : Option String) : Bool :=
  match o with
  | none => true
  | some s => s == ""

/-- The regex `/^\d{10}$/` from the subscribe handler: exactly ten
decimal digits. -/
def validPhone (s : String) : Bool :=
  s.length == 10 && s.toList.all Char.isDigit

/-- Outcome of one `POST /api/subscribe` request: HTTP status, the
message (or error) string of the JSON body, the store afterwards,
whether a Twilio send was attempted, and whether one was delivered. -/
structure SubscribeResult where
  status : Nat
  message : String
  store : Store
  smsAttempted : Bool
  smsDelivered : Bool
deriving DecidableEq, Repr

/-- The `POST /api/subscribe` handler.  `testMode` is
`process.env.NODE_ENV === 'test'` (suppresses the Twilio call);
`smsOk` is the oracle for the Twilio call: `false` means the send
throws a `DeliveryError`, which the handler's `catch` turns into 500 —
after the record was already saved.  `now` is `Date.now` for
`createdAt`. -/
def subscribe (store : Store) (testMode : Bool) (smsOk : Bool) (now : Nat)
    (phoneNumber district city : Option String) : SubscribeResult :=
  if falsyStr phoneNumber || !validPhone (phoneNumber.getD "") then
    ⟨400, "Invalid phone number", store, false, false⟩
  else if falsyStr district || falsyStr city then
    ⟨400, "District and city are required", store, false, false⟩
  else
    let p := phoneNumber.getD ""
    match findByPhone store p with
    | some existing =>
      ⟨200,
       "You\x27re already subscribed for " ++ existing.city ++ ", " ++
         existing.district,
       store, false, false⟩
    | none =>
      let sub : Subscriber := ⟨p, district.getD "", city.getD "", now⟩
      let store2 := store ++ [sub]
      if testMode then
        ⟨201, "Subscription successful", store2, false, false⟩
      else if smsOk then
        ⟨201, "Subscription successful", store2, true, true⟩
      else
        ⟨500, "Subscription failed", store2, true, false⟩

/-- Outcome of one `POST /api/unsubscribe` request. -/
structure UnsubscribeResult where
  status : Nat
  message : String
  store : Store
deriving DecidableEq, Repr

/-- The `POST /api/unsubscribe` handler: 400 on a falsy phone number,
otherwise `deleteOne`; 404 when `deletedCount` is 0, 200 otherwise. -/
def unsubscribe (store : Store) (phoneNumber : Option String) :
    UnsubscribeResult :=
  if falsyStr phoneNumber then
    ⟨400, "Phone number is required", store⟩
  else
    let p := phoneNumber.getD ""
    let r := deleteOne store p
    if r.2 == 0 then
      ⟨404, "Subscription not found", r.1⟩
    else
      ⟨200, "Unsubscribed successfully", r.1⟩

/-- One hour record of the provider payload (`days[i].hours[j]`), the
fields read by `processHourlyForecast`.  Numeric fields are modelled as
integers; their values are never computed with. -/
structure HourRec where
  datetimeEpoch : Nat
  temp : Int
  feelslike : Int
  humidity : Int
  precip : Int
  precipprob : Int
  windspeed : Int
  winddir : Int
  conditions : String
  icon : String
deriving DecidableEq, Repr

/-- One day record of the provider payload (`days[i]`), the fields read
by `processDailyForecast` / `processCurrentConditions`. -/
structure DayRec where
  datetimeEpoch : Nat
  tempmax : Int
  tempmin : Int
  temp : Int
  feelslike : Int
  humidity : Int
  precip : Int
  precipprob : Int
  windspeed : Int
  winddir : Int
  conditions : String
  icon : String
  sunrise : String
  sunset : String
  description : String
  hours : List HourRec
deriving DecidableEq, Repr

/-- The `currentConditions` object of the provider payload. -/
structure CurrentRec where
  temp : Int
  feelslike : Int
  humidity : Int
  windspeed : Int
  winddir : Int
  pressure : Int
  uvindex : Int
  visibility : Int
  conditions : String
  icon : String
  precip : Int
  snow : Int
deriving DecidableEq, Repr

/-- A returned provider payload.  `currentConditions` is optional
because an error payload may lack it (reading a field off `undefined`
then throws, landing in the handler's `catch`).  `errorCode` is a JS
number; it is truthy exactly when present and nonzero. -/
structure WeatherPayload where
  resolvedAddress : String
  currentConditions : Option CurrentRec
  days : List DayRec
  errorCode : Option Nat
deriving DecidableEq, Repr

/-- Result of one `fetchWeatherData(location)` call: `throws` when the
axios call fails (network failure or non-success response — the catch
rethrows `Failed to fetch weather data`); `ok d` when it returns
`response.data`, with `none` standing for a falsy body. -/
inductive FetchResult where
  | throws
  | ok (data : Option WeatherPayload)
deriving DecidableEq, Repr

/-- A weather-provider oracle: what `fetchWeatherData` does on each
location query string. -/
abbrev Provider := String → FetchResult

/-- The location query built by the handlers: `` `${name},Tamil Nadu,India` ``. -/
def locationQuery (name : String) : String := name ++ ",Tamil Nadu,India"

/-- Truthiness of `weatherData.errorCode` (a JS number: truthy iff
present and nonzero). -/
def hasErrorCode (p : WeatherPayload) : Bool :=
  match p.errorCode with
  | none => false
  | some n => n != 0

/-- The handler's retry test `!weatherData || weatherData.errorCode`:
the returned body is falsy or carries a truthy error code. -/
def badPayload (d : Option WeatherPayload) : Bool :=
  match d with
  | none => true
  | some p => hasErrorCode p

/-- Whether a `fetchWeatherData` call RETURNED a bad payload (as
opposed to throwing). -/
def returnsBad (r : FetchResult) : Bool :=
  match r with
  | .throws => false
  | .ok d => badPayload d

/-- Display record produced by `processHourlyForecast` for one hour. -/
structure HourOut where
  time : String
  temp : Int
  feelslike : Int
  humidity : Int
  precip : Int
  precipProb : Int
  windspeed : Int
  winddir : Int
  conditions : String
  icon : String
deriving DecidableEq, Repr

/-- Display record produced by `processDailyForecast` for one day. -/
structure DayOut where
  date : String
  tempmax : Int
  tempmin : Int
  temp : Int
  feelslike : Int
  humidity : Int
  precip : Int
  precipProb : Int
  windspeed : Int
  winddir : Int
  conditions : String
  icon : String
  sunrise : String
  sunset : String
  description : String
deriving DecidableEq, Repr

/-- `processCurrentConditions(data)` output: the fixed field subset of
`currentConditions` plus `days[0]`'s sunrise/sunset. -/
structure CurrentOut where
  temp : Int
  feelslike : Int
  humidity : Int
  windspeed : Int
  winddir : Int
  pressure : Int
  uvindex : Int
  visibility : Int
  conditions : String
  icon : String
  sunrise : String
  sunset : String
  precip : Int
  snow : Int
deriving DecidableEq, Repr

/-- `processCurrentConditions`, given the `currentConditions` object
and `days[0]` (both must exist, or the JS code throws). -/
def processCurrentConditions (current : CurrentRec) (day0 : DayRec) :
    CurrentOut :=
  ⟨current.temp, current.feelslike, current.humidity, current.windspeed,
   current.winddir, current.pressure, current.uvindex, current.visibility,
   current.conditions, current.icon, day0.sunrise, day0.sunset,
   current.precip, current.snow⟩

/-- `processHourlyForecast(hourlyData)`: an element-wise map.
`hourFmt` stands for the locale hour-label formatting
(`toLocaleTimeString` applied to `datetimeEpoch * 1000`), which is
environment-dependent and so passed as a parameter. -/
def processHourlyForecast (hourFmt : Nat → String)
    (hourlyData : List HourRec) : List HourOut :=
  hourlyData.map (fun hour =>
    ⟨hourFmt hour.datetimeEpoch, hour.temp, hour.feelslike, hour.humidity,
     hour.precip, hour.precipprob, hour.windspeed, hour.winddir,
     hour.conditions, hour.icon⟩)

/-- `processDailyForecast(dailyData)`: an element-wise map.  `dateFmt`
stands for the locale date-label formatting (`toLocaleDateString` on
`datetimeEpoch * 1000`). -/
def processDailyForecast (dateFmt : Nat → String)
    (dailyData : List DayRec) : List DayOut :=
  dailyData.map (fun day =>
    ⟨dateFmt day.datetimeEpoch, day.tempmax, day.tempmin, day.temp,
     day.feelslike, day.humidity, day.precip, day.precipprob,
     day.windspeed, day.winddir, day.conditions, day.icon, day.sunrise,
     day.sunset, day.description⟩)

/-- The JSON body of a successful `GET /api/weather` response. -/
structure WeatherResponse where
  address : String
  currentConditions : CurrentOut
  hourly : List HourOut
  daily : List DayOut
deriving DecidableEq, Repr

/-- Outcome of one `GET /api/weather` request. -/
inductive WeatherResult where
  | badRequest
  | notFound
  | serverError
  | success (body : WeatherResponse)
deriving DecidableEq, Repr

/-- The response-building tail of the weather handler
(`responseData = { address, currentConditions, hourly, daily }`).
Returns `none` when the JS code would throw a `TypeError` — `days` is
empty (so `days[0]` is `undefined`) or `currentConditions` is missing —
which the handler's `catch` turns into 500. -/
def buildResponse (hourFmt dateFmt : Nat → String) (p : WeatherPayload) :
    Option WeatherResponse :=
  match p.days, p.currentConditions with
  | day0 :: _, some current =>
    some ⟨p.resolvedAddress,
          processCurrentConditions current day0,
          processHourlyForecast hourFmt day0.hours,
          processDailyForecast dateFmt (p.days.take 7)⟩
  | _, _ => none

/-- The `GET /api/weather` handler.  Returns the HTTP outcome together
with the list of location queries sent to the provider, in order. -/
def getWeather (provider : Provider) (hourFmt dateFmt : Nat → String)
    (city district : Option String) : WeatherResult × List String :=
  if falsyStr city || falsyStr district then
    (.badRequest, [])
  else
    let loc1 := locationQuery (city.getD "")
    let loc2 := locationQuery (district.getD "")
    let finish : WeatherPayload → List String → WeatherResult × List String :=
      fun p calls =>
        match buildResponse hourFmt dateFmt p with
        | none => (.serverError, calls)
        | some body => (.success body, calls)
    let retry : WeatherResult × List String :=
      match provider loc2 with
      | .throws => (.serverError, [loc1, loc2])
      | .ok none => (.notFound, [loc1, loc2])
      | .ok (some p2) =>
        if hasErrorCode p2 then (.notFound, [loc1, loc2])
        else finish p2 [loc1, loc2]
    match provider loc1 with
    | .throws => (.serverError, [loc1])
    | .ok none => retry
    | .ok (some p1) =>
      if hasErrorCode p1 then retry
      else finish p1 [loc1]

/-- What the body of one scheduler-loop iteration does for one
subscriber before any catch: fetch weather by city, read
`currentConditions`, format the alert, send the SMS (unless in test
mode).  `smsOk sub.phoneNumber = false` means the Twilio call throws.
`Except.error` models a thrown exception; `Except.ok` carries the alert
message that was logged as sent. -/
def sendAlertTo (provider : Provider) (testMode : Bool)
    (smsOk : String → Bool) (sub : Subscriber) : Except String String :=
  match provider (locationQuery sub.city) with
  | .throws => .error "Failed to fetch weather data"
  | .ok none => .error "TypeError"
  | .ok (some p) =>
    match p.currentConditions with
    | none => .error "TypeError"
    | some current =>
      let message :=
        "Weather alert for " ++ sub.city ++ ": " ++ current.conditions ++
        ", Temp: " ++ toString current.temp ++ "\xb0F (feels like " ++
        toString current.feelslike ++ "\xb0F), Humidity: " ++
        toString current.humidity ++ "%, Wind: " ++
        toString current.windspeed ++ " mph"
      if testMode then .ok message
      else if smsOk sub.phoneNumber then .ok message
      else .error "DeliveryError"

/-- The logged outcome of one scheduler-loop iteration: the inner
`try`/`catch` converts any thrown error into a logged failure, so every
iteration yields an outcome instead of propagating. -/
inductive TickOutcome where
  | sent (phoneNumber : String) (message : String)
  | failed (phoneNumber : String) (error : String)
deriving DecidableEq, Repr

/-- One scheduler-loop iteration including its `try`/`catch`. -/
def attemptOne (provider : Provider) (testMode : Bool)
    (smsOk : String → Bool) (sub : Subscriber) : TickOutcome :=
  match sendAlertTo provider testMode smsOk sub with
  | .ok message => .sent sub.phoneNumber message
  | .error e => .failed sub.phoneNumber e

/-- One tick of the hourly cron job: `Subscriber.find()` then the
`for` loop over all subscribers in store order, each iteration wrapped
in its own `try`/`catch`.  The tick is a total function into the list
of per-subscriber outcomes: it never throws and never modifies the
store. -/
def tick (provider : Provider) (testMode : Bool) (smsOk : String → Bool)
    (subs : List Subscriber) : List TickOutcome :=
  subs.map (attemptOne provider testMode smsOk)

/-- A store-affecting operation of the system: a subscribe request, an
unsubscribe request, or a scheduler tick (which only reads the store).
Each carries the request fields and external-world outcomes of that
step. -/
inductive Op where
  | subscribeOp (testMode smsOk : Bool) (now : Nat)
      (phoneNumber district city : Option String)
  | unsubscribeOp (phoneNumber : Option String)
  | tickOp (provider : Provider) (testMode : Bool) (smsOk : String → Bool)

/-- The store after one operation. -/
def applyOp (store : Store) : Op → Store
  | .subscribeOp t s n p d c => (subscribe store t s n p d c).store
  | .unsubscribeOp p => (unsubscribe store p).store
  | .tickOp _ _ _ => store

/-- The store after a sequence of operations. -/
def applyOps (store : Store) (ops : List Op) : Store :=
  ops.foldl applyOp store

/-- The uniqueness invariant of the subscriber collection: no two
records share a phone number (the `unique: true` index). -/
def uniquePhones (store : Store) : Prop :=
  store.Pairwise (fun a b => a.phoneNumber ≠ b.phoneNumber)

instance : DecidablePred uniquePhones := fun store =>
  List.instDecidablePairwise store

/-- A concrete `currentConditions` object, used to exercise the
handlers on concrete inputs. -/
def sampleCurrent : CurrentRec :=
  ⟨82, 88, 70, 8, 180, 1012, 6, 10, "Partially cloudy", "partly-cloudy-day",
   0, 0⟩

/-- A concrete hour record. -/
def sampleHour : HourRec :=
  ⟨1700000000, 80, 84, 72, 0, 10, 7, 170, "Clear", "clear-day"⟩

/-- A concrete day record with two hours. -/
def sampleDay : DayRec :=
  ⟨1700000000, 90, 75, 82, 88, 70, 0, 10, 8, 180, "Partially cloudy",
   "partly-cloudy-day", "06:10:00", "18:05:00", "Partly cloudy all day.",
   [sampleHour, sampleHour]⟩

/-- A concrete well-formed provider payload: resolved address, current
conditions, one day, no error code. -/
def samplePayload : WeatherPayload :=
  ⟨"Chennai, Tamil Nadu, India", some sampleCurrent, [sampleDay], none⟩

/-! ### Helper lemmas about the store operations -/

theorem findByPhone_eq_none_iff {store : Store} {p : String} :
    findByPhone store p = none ↔ ∀ s ∈ store, s.phoneNumber ≠ p := by
  induction store with
  | nil => simp [findByPhone]
  | cons s rest ih =>
    by_cases hs : s.phoneNumber = p
    · simp [findByPhone, hs]
    · simp [findByPhone, hs, ih]

theorem findByPhone_append_none {store : Store} {p : String}
    (sub : Subscriber) (h : findByPhone store p = none) :
    findByPhone (store ++ [sub]) p =
      if sub.phoneNumber == p then some sub else none := by
  induction store with
  | nil => simp [findByPhone]
  | cons s rest ih =>
    rw [findByPhone_eq_none_iff] at h
    have hs : (s.phoneNumber == p) = false := by
      simpa using h s (List.mem_cons_self s rest)
    have hrest : findByPhone rest p = none := by
      rw [findByPhone_eq_none_iff]
      intro a ha
      exact h a (List.mem_cons_of_mem s ha)
    simp only [List.cons_append, findByPhone, hs]
    exact ih hrest

theorem validPhone_ne_empty {p : String} (h : validPhone p = true) :
    p ≠ "" := by
  intro he
  subst he
  simp [validPhone] at h

theorem deleteOne_of_findByPhone_none {store : Store} {p : String}
    (h : findByPhone store p = none) : deleteOne store p = (store, 0) := by
  induction store with
  | nil => rfl
  | cons s rest ih =>
    rw [findByPhone_eq_none_iff] at h
    have hs : (s.phoneNumber == p) = false := by
      simpa using h s (List.mem_cons_self s rest)
    have hrest : findByPhone rest p = none := by
      rw [findByPhone_eq_none_iff]
      intro a ha
      exact h a (List.mem_cons_of_mem s ha)
    simp [deleteOne, hs, ih hrest]

theorem deleteOne_snd_of_findByPhone_some {store : Store} {p : String}
    {r : Subscriber} (h : findByPhone store p = some r) :
    (deleteOne store p).2 = 1 := by
  induction store with
  | nil => exact Option.noConfusion h
  | cons s rest ih =>
    by_cases hs : s.phoneNumber = p
    · simp [deleteOne, hs]
    · have hb : (s.phoneNumber == p) = false := by simpa using hs
      have h2 : findByPhone rest p = some r := by
        simpa [findByPhone, hb] using h
      simp [deleteOne, hb, ih h2]

theorem deleteOne_length (store : Store) (p : String) :
    (deleteOne store p).1.length + (deleteOne store p).2 = store.length := by
  induction store with
  | nil => rfl
  | cons s rest ih =>
    by_cases hs : (s.phoneNumber == p) = true
    · simp [deleteOne, hs]
    · have hb : (s.phoneNumber == p) = false := by simpa using hs
      simp only [deleteOne, hb, Bool.false_eq_true, if_false,
        List.length_cons]
      omega

theorem deleteOne_sublist (store : Store) (p : String) :
    (deleteOne store p).1.Sublist store := by
  induction store with
  | nil => simp [deleteOne]
  | cons s rest ih =>
    by_cases hs : (s.phoneNumber == p) = true
    · simp only [deleteOne, hs, if_true]
      exact List.sublist_cons_self s rest
    · have hb : (s.phoneNumber == p) = false := by simpa using hs
      simp only [deleteOne, hb, Bool.false_eq_true, if_false]
      exact ih.cons₂ s

theorem uniquePhones_append_single {store : Store} {sub : Subscriber}
    (hu : uniquePhones store) (h : findByPhone store sub.phoneNumber = none) :
    uniquePhones (store ++ [sub]) := by
  unfold uniquePhones at hu ⊢
  rw [List.pairwise_append]
  refine ⟨hu, List.pairwise_singleton _ _, ?_⟩
  intro a ha b hb
  rw [List.mem_singleton] at hb
  subst hb
  rw [findByPhone_eq_none_iff] at h
  exact h a ha

theorem findByPhone_deleteOne_self {store : Store} {p : String}
    (hu : uniquePhones store) : findByPhone (deleteOne store p).1 p = none := by
  induction store with
  | nil => rfl
  | cons s rest ih =>
    unfold uniquePhones at hu
    rw [List.pairwise_cons] at hu
    by_cases hs : s.phoneNumber = p
    · have hb : (s.phoneNumber == p) = true := by simpa using hs
      simp only [deleteOne, hb, if_true]
      rw [findByPhone_eq_none_iff]
      intro a ha
      intro hap
      exact hu.1 a ha (hs.trans hap.symm)
    · have hb : (s.phoneNumber == p) = false := by simpa using hs
      simp only [deleteOne, hb, Bool.false_eq_true, if_false, findByPhone,
        hb]
      exact ih hu.2

theorem countP_phone_of_unique {store : Store} {p : String} {r : Subscriber}
    (hu : uniquePhones store) (h : findByPhone store p = some r) :
    store.countP (fun s => s.phoneNumber == p) = 1 := by
  induction store with
  | nil => exact Option.noConfusion h
  | cons s rest ih =>
    unfold uniquePhones at hu
    rw [List.pairwise_cons] at hu
    by_cases hs : s.phoneNumber = p
    · have hb : (s.phoneNumber == p) = true := by simpa using hs
      have hrest : rest.countP (fun s => s.phoneNumber == p) = 0 := by
        rw [List.countP_eq_zero]
        intro a ha
        have hne := hu.1 a ha
        simp only [Bool.not_eq_true, beq_eq_false_iff_ne]
        intro hap
        exact hne (hs.trans hap.symm)
      simp [List.countP_cons, hb, hrest]
    · have hb : (s.phoneNumber == p) = false := by simpa using hs
      have h2 : findByPhone rest p = some r := by
        simpa [findByPhone, hb] using h
      simp [List.countP_cons, hb, ih hu.2 h2]

theorem subscribe_preserves_unique (store : Store) (tm sms : Bool)
    (now : Nat) (pn d c : Option String) (hu : uniquePhones store) :
    uniquePhones (subscribe store tm sms now pn d c).store := by
  unfold subscribe
  split
  · exact hu
  split
  · exact hu
  cases hfind : findByPhone store (pn.getD "") with
  | some e => simp only [hfind]; exact hu
  | none =>
    have hap : uniquePhones
        (store ++ [⟨pn.getD "", d.getD "", c.getD "", now⟩]) :=
      uniquePhones_append_single hu hfind
    simp only [hfind]
    split
    · exact hap
    split
    · exact hap
    · exact hap

theorem unsubscribe_preserves_unique (store : Store) (pn : Option String)
    (hu : uniquePhones store) : uniquePhones (unsubscribe store pn).store := by
  unfold unsubscribe
  split
  · exact hu
  dsimp only
  split
  · exact List.Pairwise.sublist (deleteOne_sublist store _) hu
  · exact List.Pairwise.sublist (deleteOne_sublist store _) hu

theorem buildResponse_eq_some {hourFmt dateFmt : Nat → String}
    {p : WeatherPayload} {body : WeatherResponse}
    (h : buildResponse hourFmt dateFmt p = some body) :
    ∃ current day0 rest, p.currentConditions = some current ∧
      p.days = day0 :: rest ∧
      body = ⟨p.resolvedAddress, processCurrentConditions current day0,
        processHourlyForecast hourFmt day0.hours,
        processDailyForecast dateFmt (p.days.take 7)⟩ := by
  unfold buildResponse at h
  cases hd : p.days with
  | nil =>
    rw [hd] at h
    cases hcc : p.currentConditions <;> rw [hcc] at h <;> simp at h
  | cons day0 rest =>
    cases hcc : p.currentConditions with
    | none =>
      rw [hd, hcc] at h
      simp at h
    | some current =>
      rw [hd, hcc] at h
      simp only [Option.some.injEq] at h
      exact ⟨current, day0, rest, rfl, rfl, h.symm⟩

theorem processHourlyForecast_length (hourFmt : Nat → String)
    (l : List HourRec) :
    (processHourlyForecast hourFmt l).length = l.length := by
  simp [processHourlyForecast]

theorem processDailyForecast_length (dateFmt : Nat → String)
    (l : List DayRec) :
    (processDailyForecast dateFmt l).length = l.length := by
  simp [processDailyForecast]

theorem take7_length_le (l : List DayRec) : (l.take 7).length ≤ 7 := by
  rw [List.length_take]
  exact Nat.min_le_left _ _

/-! ### Claim theorems -/

/-- C1: in `POST /api/subscribe`, when the subscriber record has been
saved and the subsequent confirmation-SMS send fails, the handler
responds 500 while the newly created record remains persisted:
for every subscribe request with a valid 10-digit phone number not
already present, district and city present, not in test mode, and an
SMS send that throws a `DeliveryError`, the response status is 500 and
`findByPhone` on that number afterwards returns the created record. -/
theorem subscribe_sms_failure_persists_record
    (store : Store) (now : Nat) (p d c : String)
    (hp : validPhone p = true) (hd : d ≠ "") (hc : c ≠ "")
    (habsent : findByPhone store p = none) :
    (subscribe store false false now (some p) (some d) (some c)).status
      = 500 ∧
    findByPhone
      (subscribe store false false now (some p) (some d) (some c)).store p
      = some ⟨p, d, c, now⟩ := by
  have hpne : (p == "") = false :=
    beq_eq_false_iff_ne.mpr (validPhone_ne_empty hp)
  have hdne : (d == "") = false := beq_eq_false_iff_ne.mpr hd
  have hcne : (c == "") = false := beq_eq_false_iff_ne.mpr hc
  have hsub : subscribe store false false now (some p) (some d) (some c) =
      ⟨500, "Subscription failed", store ++ [⟨p, d, c, now⟩], true, false⟩ := by
    simp [subscribe, falsyStr, hpne, hdne, hcne, hp, habsent]
  rw [hsub]
  refine ⟨rfl, ?_⟩
  rw [findByPhone_append_none _ habsent]
  simp

theorem subscribe_sms_failure_persists_record_witness :
    (subscribe [] false false 7 (some "9876543210") (some "Chennai")
      (some "Chennai")).status = 500 ∧
    findByPhone
      (subscribe [] false false 7 (some "9876543210") (some "Chennai")
        (some "Chennai")).store "9876543210"
      = some ⟨"9876543210", "Chennai", "Chennai", 7⟩ :=
  subscribe_sms_failure_persists_record [] 7 "9876543210" "Chennai"
    "Chennai" (by decide) (by decide) (by decide) rfl

/-- C3: for every phone number that already has a subscriber record,
`POST /api/subscribe` with that number (and any present district/city)
returns HTTP 200 (not 201) with an informational message reporting the
EXISTING record's city and district, leaves the store unchanged (no
second record, no mutation), and attempts no SMS; afterwards exactly
one record for that phone number exists. -/
theorem resubscribe_is_noop (store : Store) (tm sms : Bool) (now : Nat)
    (p d c : String) (r : Subscriber)
    (hp : validPhone p = true) (hd : d ≠ "") (hc : c ≠ "")
    (hu : uniquePhones store) (hfound : findByPhone store p = some r) :
    (subscribe store tm sms now (some p) (some d) (some c)).status = 200 ∧
    (subscribe store tm sms now (some p) (some d) (some c)).message =
      "You\x27re already subscribed for " ++ r.city ++ ", " ++ r.district ∧
    (subscribe store tm sms now (some p) (some d) (some c)).store = store ∧
    (subscribe store tm sms now (some p) (some d) (some c)).smsAttempted
      = false ∧
    ((subscribe store tm sms now (some p) (some d) (some c)).store.countP
      (fun s => s.phoneNumber == p)) = 1 := by
  have hpne : (p == "") = false :=
    beq_eq_false_iff_ne.mpr (validPhone_ne_empty hp)
  have hdne : (d == "") = false := beq_eq_false_iff_ne.mpr hd
  have hcne : (c == "") = false := beq_eq_false_iff_ne.mpr hc
  have hsub : subscribe store tm sms now (some p) (some d) (some c) =
      ⟨200, "You\x27re already subscribed for " ++ r.city ++ ", " ++
        r.district, store, false, false⟩ := by
    simp [subscribe, falsyStr, hpne, hdne, hcne, hp, hfound]
  rw [hsub]
  exact ⟨rfl, rfl, rfl, rfl, countP_phone_of_unique hu hfound⟩

theorem resubscribe_is_noop_witness :
    (subscribe [⟨"9876543210", "Salem", "Erode", 1⟩] false true 9
      (some "9876543210") (some "Chennai") (some "Chennai")).status = 200 ∧
    (subscribe [⟨"9876543210", "Salem", "Erode", 1⟩] false true 9
      (some "9876543210") (some "Chennai") (some "Chennai")).message =
      "You\x27re already subscribed for " ++ "Erode" ++ ", " ++ "Salem" ∧
    (subscribe [⟨"9876543210", "Salem", "Erode", 1⟩] false true 9
      (some "9876543210") (some "Chennai") (some "Chennai")).store =
      [⟨"9876543210", "Salem", "Erode", 1⟩] ∧
    (subscribe [⟨"9876543210", "Salem", "Erode", 1⟩] false true 9
      (some "9876543210") (some "Chennai") (some "Chennai")).smsAttempted
      = false ∧
    ((subscribe [⟨"9876543210", "Salem", "Erode", 1⟩] false true 9
      (some "9876543210") (some "Chennai") (some "Chennai")).store.countP
      (fun s => s.phoneNumber == "9876543210")) = 1 :=
  resubscribe_is_noop [⟨"9876543210", "Salem", "Erode", 1⟩] false true 9
    "9876543210" "Chennai" "Chennai" ⟨"9876543210", "Salem", "Erode", 1⟩
    (by decide) (by decide) (by decide) (by decide) rfl

/-- C4: the store invariant "at most one subscriber record per phone
number" is preserved by every operation: starting from a store
satisfying it, any sequence of subscribe, unsubscribe, and scheduler
operations leaves a store in which no two subscriber records share a
phone number. -/
theorem uniquePhones_preserved_by_ops (store : Store) (ops : List Op)
    (hu : uniquePhones store) : uniquePhones (applyOps store ops) := by
  induction ops generalizing store with
  | nil => exact hu
  | cons op rest ih =>
    have h1 : uniquePhones (applyOp store op) := by
      cases op with
      | subscribeOp t s n p d c =>
        exact subscribe_preserves_unique store t s n p d c hu
      | unsubscribeOp p => exact unsubscribe_preserves_unique store p hu
      | tickOp prov t s => exact hu
    exact ih (applyOp store op) h1

theorem uniquePhones_preserved_by_ops_witness :
    uniquePhones (applyOps [⟨"1111111111", "Salem", "Salem", 0⟩]
      [Op.subscribeOp false true 3 (some "9876543210") (some "Chennai")
        (some "Chennai"),
       Op.tickOp (fun _ => FetchResult.throws) false (fun _ => true),
       Op.subscribeOp false false 4 (some "9876543210") (some "Madurai")
        (some "Madurai"),
       Op.unsubscribeOp (some "1111111111")]) :=
  uniquePhones_preserved_by_ops [⟨"1111111111", "Salem", "Salem", 0⟩] _
    (by decide)

/-- C6: `POST /api/unsubscribe` returns 400 when the phone number is
missing (falsy) in the body; otherwise it deletes the matching record
and returns 200 if one was removed, or 404 if no record with that phone
number existed — and in the 404 case the store is left completely
unchanged. -/
theorem unsubscribe_delete_semantics (store : Store) (phone : Option String) :
    (falsyStr phone = true →
      (unsubscribe store phone).status = 400 ∧
      (unsubscribe store phone).store = store) ∧
    (∀ p, phone = some p → falsyStr phone = false →
      ((findByPhone store p = none →
        (unsubscribe store phone).status = 404 ∧
        (unsubscribe store phone).store = store) ∧
      (∀ r, findByPhone store p = some r →
        (unsubscribe store phone).status = 200 ∧
        (unsubscribe store phone).store.length + 1 = store.length ∧
        (uniquePhones store →
          findByPhone (unsubscribe store phone).store p = none)))) := by
  refine ⟨?_, ?_⟩
  · intro hf
    simp [unsubscribe, hf]
  · intro p hp hf
    subst hp
    refine ⟨?_, ?_⟩
    · intro hnone
      have hdel := deleteOne_of_findByPhone_none hnone
      simp [unsubscribe, hf, hdel]
    · intro r hsome
      have h1 := deleteOne_snd_of_findByPhone_some hsome
      have h2 := deleteOne_length store p
      have hst : (unsubscribe store (some p)).store = (deleteOne store p).1 := by
        simp [unsubscribe, hf, h1]
      refine ⟨?_, ?_, ?_⟩
      · simp [unsubscribe, hf, h1]
      · rw [hst]
        omega
      · intro hu
        rw [hst]
        exact findByPhone_deleteOne_self hu

theorem unsubscribe_delete_semantics_witness :
    (unsubscribe [⟨"9876543210", "Salem", "Salem", 0⟩] none).status = 400 ∧
    (unsubscribe [⟨"9876543210", "Salem", "Salem", 0⟩]
      (some "1234567890")).status = 404 ∧
    (unsubscribe [⟨"9876543210", "Salem", "Salem", 0⟩]
      (some "1234567890")).store = [⟨"9876543210", "Salem", "Salem", 0⟩] ∧
    (unsubscribe [⟨"9876543210", "Salem", "Salem", 0⟩]
      (some "9876543210")).status = 200 ∧
    findByPhone (unsubscribe [⟨"9876543210", "Salem", "Salem", 0⟩]
      (some "9876543210")).store "9876543210" = none :=
  ⟨((unsubscribe_delete_semantics [⟨"9876543210", "Salem", "Salem", 0⟩]
      none).1 rfl).1,
   (((unsubscribe_delete_semantics [⟨"9876543210", "Salem", "Salem", 0⟩]
      (some "1234567890")).2 "1234567890" rfl (by decide)).1 rfl).1,
   (((unsubscribe_delete_semantics [⟨"9876543210", "Salem", "Salem", 0⟩]
      (some "1234567890")).2 "1234567890" rfl (by decide)).1 rfl).2,
   ((((unsubscribe_delete_semantics [⟨"9876543210", "Salem", "Salem", 0⟩]
      (some "9876543210")).2 "9876543210" rfl (by decide)).2
      ⟨"9876543210", "Salem", "Salem", 0⟩ rfl)).1,
   ((((unsubscribe_delete_semantics [⟨"9876543210", "Salem", "Salem", 0⟩]
      (some "9876543210")).2 "9876543210" rfl (by decide)).2
      ⟨"9876543210", "Salem", "Salem", 0⟩ rfl)).2.2 (by decide)⟩

/-- C7: `POST /api/subscribe` returns 400 for every request whose
phone number is absent or does not match exactly 10 digits, and 400 for
every request whose district or city is absent (falsy); in every such
case no record is created and no SMS is sent. -/
theorem subscribe_validation_rejects (store : Store) (tm sms : Bool)
    (now : Nat) (pn d c : Option String)
    (h : (falsyStr pn || !validPhone (pn.getD "")) = true ∨
         (falsyStr d || falsyStr c) = true) :
    (subscribe store tm sms now pn d c).status = 400 ∧
    (subscribe store tm sms now pn d c).store = store ∧
    (subscribe store tm sms now pn d c).smsAttempted = false := by
  by_cases h1 : (falsyStr pn || !validPhone (pn.getD "")) = true
  · simp [subscribe, h1]
  · have h1f : (falsyStr pn || !validPhone (pn.getD "")) = false := by
      simpa using h1
    rcases h with h | h
    · exact absurd h h1
    · simp [subscribe, h1f, h]

theorem subscribe_validation_rejects_witness :
    ((subscribe [] false true 0 none (some "Salem") (some "Salem")).status
      = 400 ∧
     (subscribe [] false true 0 none (some "Salem") (some "Salem")).store
      = [] ∧
     (subscribe [] false true 0 none (some "Salem")
      (some "Salem")).smsAttempted = false) ∧
    ((subscribe [] false true 0 (some "12345") (some "Salem")
      (some "Salem")).status = 400) ∧
    ((subscribe [] false true 0 (some "9876543210") none
      (some "Salem")).status = 400) :=
  ⟨subscribe_validation_rejects [] false true 0 none (some "Salem")
      (some "Salem") (Or.inl (by decide)),
   (subscribe_validation_rejects [] false true 0 (some "12345")
      (some "Salem") (some "Salem") (Or.inl (by decide))).1,
   (subscribe_validation_rejects [] false true 0 (some "9876543210") none
      (some "Salem") (Or.inr (by decide))).1⟩

/-- C10: `POST /api/unsubscribe` applies no shape validation to the
phone number beyond non-emptiness — for every non-empty phone-number
string, including ones that are not exactly 10 digits, the handler
proceeds to the delete rather than returning 400, so a number matching
no record yields 404 with the store unchanged, never 400. -/
theorem unsubscribe_no_shape_check (store : Store) (p : String)
    (hne : p ≠ "") :
    (unsubscribe store (some p)).status ≠ 400 ∧
    (findByPhone store p = none →
      (unsubscribe store (some p)).status = 404 ∧
      (unsubscribe store (some p)).store = store) := by
  have hf : falsyStr (some p) = false := by
    simp [falsyStr]
    exact hne
  constructor
  · by_cases hfound : findByPhone store p = none
    · have hdel := deleteOne_of_findByPhone_none hfound
      simp [unsubscribe, hf, hdel]
    · rcases Option.ne_none_iff_exists'.mp hfound with ⟨r, hr⟩
      have h1 := deleteOne_snd_of_findByPhone_some hr
      simp [unsubscribe, hf, h1]
  · intro hnone
    have hdel := deleteOne_of_findByPhone_none hnone
    simp [unsubscribe, hf, hdel]

theorem unsubscribe_no_shape_check_witness :
    (unsubscribe [⟨"9876543210", "Salem", "Salem", 0⟩]
      (some "12")).status ≠ 400 ∧
    (unsubscribe [⟨"9876543210", "Salem", "Salem", 0⟩]
      (some "12")).status = 404 ∧
    (unsubscribe [⟨"9876543210", "Salem", "Salem", 0⟩]
      (some "12")).store = [⟨"9876543210", "Salem", "Salem", 0⟩] :=
  ⟨(unsubscribe_no_shape_check [⟨"9876543210", "Salem", "Salem", 0⟩]
      "12" (by decide)).1,
   (unsubscribe_no_shape_check [⟨"9876543210", "Salem", "Salem", 0⟩]
      "12" (by decide)).2 rfl⟩

/-- C5: in a scheduler tick, a failure (weather fetch or SMS send) for
one subscriber is caught per subscriber and does not abort the
remaining subscribers or the job: the tick is a total function that
yields exactly one outcome per subscriber, and the outcome of each
subscriber is determined by attempting that subscriber alone, so every
subsequent subscriber is still attempted however earlier ones fail. -/
theorem tick_isolates_per_subscriber_failures (provider : Provider)
    (testMode : Bool) (smsOk : String → Bool) (subs : List Subscriber) :
    (tick provider testMode smsOk subs).length = subs.length ∧
    ∀ i (h1 : i < subs.length)
      (h2 : i < (tick provider testMode smsOk subs).length),
      (tick provider testMode smsOk subs).get ⟨i, h2⟩ =
        attemptOne provider testMode smsOk (subs.get ⟨i, h1⟩) := by
  constructor
  · simp [tick]
  · intro i h1 h2
    simp [tick]

theorem tick_isolates_per_subscriber_failures_witness :
    (tick
      (fun loc => if loc == "B,Tamil Nadu,India" then FetchResult.throws
        else FetchResult.ok (some samplePayload))
      false (fun _ => true)
      [⟨"1111111111", "D", "A", 0⟩, ⟨"2222222222", "D", "B", 0⟩,
       ⟨"3333333333", "D", "C", 0⟩]).get ⟨2, by decide⟩ =
      attemptOne
        (fun loc => if loc == "B,Tamil Nadu,India" then FetchResult.throws
          else FetchResult.ok (some samplePayload))
        false (fun _ => true) ⟨"3333333333", "D", "C", 0⟩ :=
  (tick_isolates_per_subscriber_failures
      (fun loc => if loc == "B,Tamil Nadu,India" then FetchResult.throws
        else FetchResult.ok (some samplePayload))
      false (fun _ => true)
      [⟨"1111111111", "D", "A", 0⟩, ⟨"2222222222", "D", "B", 0⟩,
       ⟨"3333333333", "D", "C", 0⟩]).2 2 (by decide) (by decide)

/-- C9: in `GET /api/weather`, the district fallback is attempted only
when the city call RETURNS a falsy payload or one carrying `errorCode`;
if the city call throws (network failure or non-success HTTP response),
the handler responds 500 immediately and never queries the district —
even when the district would have resolved. -/
theorem getWeather_city_throw_no_fallback (provider : Provider)
    (hourFmt dateFmt : Nat → String) (city district : String)
    (p : WeatherPayload) (hc : city ≠ "") (hd : district ≠ "")
    (h1 : provider (locationQuery city) = FetchResult.throws)
    (h2 : provider (locationQuery district) = FetchResult.ok (some p))
    (h3 : hasErrorCode p = false) :
    getWeather provider hourFmt dateFmt (some city) (some district) =
      (WeatherResult.serverError, [locationQuery city]) := by
  have hcf : falsyStr (some city) = false := by
    simp [falsyStr]
    exact hc
  have hdf : falsyStr (some district) = false := by
    simp [falsyStr]
    exact hd
  simp [getWeather, hcf, hdf, h1]

theorem getWeather_city_throw_no_fallback_witness :
    getWeather
      (fun loc => if loc == "A,Tamil Nadu,India" then FetchResult.throws
        else FetchResult.ok (some samplePayload))
      (fun _ => "h") (fun _ => "d") (some "A") (some "B") =
      (WeatherResult.serverError, [locationQuery "A"]) :=
  getWeather_city_throw_no_fallback
    (fun loc => if loc == "A,Tamil Nadu,India" then FetchResult.throws
      else FetchResult.ok (some samplePayload))
    (fun _ => "h") (fun _ => "d") "A" "B" samplePayload
    (by decide) (by decide) (by decide) (by decide) (by decide)

/-- C2: `GET /api/weather` resolves the location by querying the
provider with the city first; if and only if that first call returns a
payload signaling an error code or an empty result, it retries once
with the district; if both attempts return errorCode/empty payloads it
responds 404.  For every pair (city, district) both present, at most
two provider calls are made (the call list is `[city]` or
`[city, district]`), the second call happens exactly when the first
returned a bad payload, and the 404 branch is taken exactly when both
calls returned errorCode/empty payloads. -/
theorem getWeather_fallback_and_404 (provider : Provider)
    (hourFmt dateFmt : Nat → String) (city district : String)
    (hc : city ≠ "") (hd : district ≠ "") :
    ((getWeather provider hourFmt dateFmt (some city) (some district)).2 =
        [locationQuery city] ∨
     (getWeather provider hourFmt dateFmt (some city) (some district)).2 =
        [locationQuery city, locationQuery district]) ∧
    ((getWeather provider hourFmt dateFmt (some city) (some district)).2 =
        [locationQuery city, locationQuery district] ↔
      returnsBad (provider (locationQuery city)) = true) ∧
    ((getWeather provider hourFmt dateFmt (some city) (some district)).1 =
        WeatherResult.notFound ↔
      (returnsBad (provider (locationQuery city)) = true ∧
       returnsBad (provider (locationQuery district)) = true)) := by
  have hcf : falsyStr (some city) = false := by
    simp [falsyStr]
    exact hc
  have hdf : falsyStr (some district) = false := by
    simp [falsyStr]
    exact hd
  cases hp1 : provider (locationQuery city) with
  | throws =>
    have hgw : getWeather provider hourFmt dateFmt (some city)
        (some district) = (.serverError, [locationQuery city]) := by
      simp [getWeather, hcf, hdf, hp1]
    rw [hgw]
    simp [returnsBad, hp1]
  | ok d1 =>
    have hbad1 : badPayload d1 = true →
        returnsBad (provider (locationQuery city)) = true := by
      intro hb
      rw [hp1]
      simpa [returnsBad] using hb
    cases hp2 : provider (locationQuery district) with
    | throws =>
      cases d1 with
      | none =>
        have hgw : getWeather provider hourFmt dateFmt (some city)
            (some district) =
            (.serverError, [locationQuery city, locationQuery district]) := by
          simp [getWeather, hcf, hdf, hp1, hp2]
        rw [hgw]
        simp [returnsBad, hp1, hp2, badPayload]
      | some p1 =>
        by_cases he1 : hasErrorCode p1 = true
        · have hgw : getWeather provider hourFmt dateFmt (some city)
              (some district) =
              (.serverError,
               [locationQuery city, locationQuery district]) := by
            simp [getWeather, hcf, hdf, hp1, hp2, he1]
          rw [hgw]
          simp [returnsBad, hp1, hp2, badPayload, he1]
        · have he1f : hasErrorCode p1 = false := by simpa using he1
          have hgw : getWeather provider hourFmt dateFmt (some city)
              (some district) =
              ((match buildResponse hourFmt dateFmt p1 with
                | none => WeatherResult.serverError
                | some body => WeatherResult.success body),
               [locationQuery city]) := by
            cases hb1 : buildResponse hourFmt dateFmt p1 with
            | none => simp [getWeather, hcf, hdf, hp1, he1f, hb1]
            | some body => simp [getWeather, hcf, hdf, hp1, he1f, hb1]
          rw [hgw]
          cases hb1 : buildResponse hourFmt dateFmt p1 with
          | none => simp [returnsBad, hp1, hp2, badPayload, he1f, hb1]
          | some body => simp [returnsBad, hp1, hp2, badPayload, he1f, hb1]
    | ok d2 =>
      have hbad2 : badPayload d2 = true →
          returnsBad (provider (locationQuery district)) = true := by
        intro hb
        rw [hp2]
        simpa [returnsBad] using hb
      -- helper: full description of the retry outcome
      have hretry : badPayload d1 = true →
          (getWeather provider hourFmt dateFmt (some city)
            (some district)).2 =
            [locationQuery city, locationQuery district] ∧
          ((getWeather provider hourFmt dateFmt (some city)
            (some district)).1 = WeatherResult.notFound ↔
            badPayload d2 = true) := by
        intro hb1
        cases d1 with
        | none =>
          cases d2 with
          | none =>
            constructor
            · simp [getWeather, hcf, hdf, hp1, hp2]
            · simp [getWeather, hcf, hdf, hp1, hp2, badPayload]
          | some p2 =>
            by_cases he2 : hasErrorCode p2 = true
            · constructor
              · simp [getWeather, hcf, hdf, hp1, hp2, he2]
              · simp [getWeather, hcf, hdf, hp1, hp2, he2, badPayload]
            · have he2f : hasErrorCode p2 = false := by simpa using he2
              cases hb2 : buildResponse hourFmt dateFmt p2 with
              | none =>
                constructor
                · simp [getWeather, hcf, hdf, hp1, hp2, he2f, hb2]
                · simp [getWeather, hcf, hdf, hp1, hp2, he2f, hb2,
                    badPayload]
              | some body =>
                constructor
                · simp [getWeather, hcf, hdf, hp1, hp2, he2f, hb2]
                · simp [getWeather, hcf, hdf, hp1, hp2, he2f, hb2,
                    badPayload]
        | some p1 =>
          have he1 : hasErrorCode p1 = true := by
            simpa [badPayload] using hb1
          cases d2 with
          | none =>
            constructor
            · simp [getWeather, hcf, hdf, hp1, hp2, he1]
            · simp [getWeather, hcf, hdf, hp1, hp2, he1, badPayload]
          | some p2 =>
            by_cases he2 : hasErrorCode p2 = true
            · constructor
              · simp [getWeather, hcf, hdf, hp1, hp2, he1, he2]
              · simp [getWeather, hcf, hdf, hp1, hp2, he1, he2, badPayload]
            · have he2f : hasErrorCode p2 = false := by simpa using he2
              cases hb2 : buildResponse hourFmt dateFmt p2 with
              | none =>
                constructor
                · simp [getWeather, hcf, hdf, hp1, hp2, he1, he2f, hb2]
                · simp [getWeather, hcf, hdf, hp1, hp2, he1, he2f, hb2,
                    badPayload]
              | some body =>
                constructor
                · simp [getWeather, hcf, hdf, hp1, hp2, he1, he2f, hb2]
                · simp [getWeather, hcf, hdf, hp1, hp2, he1, he2f, hb2,
                    badPayload]
      by_cases hb1 : badPayload d1 = true
      · rcases hretry hb1 with ⟨hcalls, hnf⟩
        refine ⟨Or.inr hcalls, ?_, ?_⟩
        · rw [hcalls]
          simp [returnsBad, hb1]
        · rw [hnf]
          constructor
          · intro hbd2
            exact ⟨by simpa [returnsBad] using hb1,
              by simpa [returnsBad] using hbd2⟩
          · intro hx
            simpa [returnsBad] using hx.2
      · have hb1f : badPayload d1 = false := by simpa using hb1
        rcases d1 with _ | p1
        · simp [badPayload] at hb1f
        · have he1f : hasErrorCode p1 = false := by
            simpa [badPayload] using hb1f
          have hgw : getWeather provider hourFmt dateFmt (some city)
              (some district) =
              ((match buildResponse hourFmt dateFmt p1 with
                | none => WeatherResult.serverError
                | some body => WeatherResult.success body),
               [locationQuery city]) := by
            cases hbr : buildResponse hourFmt dateFmt p1 with
            | none => simp [getWeather, hcf, hdf, hp1, he1f, hbr]
            | some body => simp [getWeather, hcf, hdf, hp1, he1f, hbr]
          rw [hgw]
          cases hbr : buildResponse hourFmt dateFmt p1 with
          | none => simp [returnsBad, badPayload, he1f, hbr]
          | some body => simp [returnsBad, badPayload, he1f, hbr]

theorem getWeather_fallback_and_404_witness :
    ((getWeather (fun _ => FetchResult.ok none) (fun _ => "h")
        (fun _ => "d") (some "A") (some "B")).2 = [locationQuery "A"] ∨
     (getWeather (fun _ => FetchResult.ok none) (fun _ => "h")
        (fun _ => "d") (some "A") (some "B")).2 =
        [locationQuery "A", locationQuery "B"]) ∧
    ((getWeather (fun _ => FetchResult.ok none) (fun _ => "h")
        (fun _ => "d") (some "A") (some "B")).2 =
        [locationQuery "A", locationQuery "B"] ↔
      returnsBad ((fun _ => FetchResult.ok none) (locationQuery "A"))
        = true) ∧
    ((getWeather (fun _ => FetchResult.ok none) (fun _ => "h")
        (fun _ => "d") (some "A") (some "B")).1 =
        WeatherResult.notFound ↔
      (returnsBad ((fun _ => FetchResult.ok none) (locationQuery "A"))
        = true ∧
       returnsBad ((fun _ => FetchResult.ok none) (locationQuery "B"))
        = true)) :=
  getWeather_fallback_and_404 (fun _ => FetchResult.ok none)
    (fun _ => "h") (fun _ => "d") "A" "B" (by decide) (by decide)

/-- C8: on success, `GET /api/weather` returns a body containing the
resolved address, `currentConditions`, an `hourly` sequence whose
length equals the number of hour records in the provider's current day
(`days[0].hours`, a length- and order-preserving map), and a `daily`
sequence of length at most 7 (the first 7 days, in order). -/
theorem getWeather_success_shape (provider : Provider)
    (hourFmt dateFmt : Nat → String) (city district : Option String)
    (body : WeatherResponse) (calls : List String)
    (h : getWeather provider hourFmt dateFmt city district =
      (WeatherResult.success body, calls)) :
    ∃ p : WeatherPayload, ∃ current : CurrentRec, ∃ day0 : DayRec,
    ∃ rest : List DayRec,
      (provider (locationQuery (city.getD "")) = FetchResult.ok (some p) ∨
       provider (locationQuery (district.getD "")) =
         FetchResult.ok (some p)) ∧
      p.currentConditions = some current ∧
      p.days = day0 :: rest ∧
      body.address = p.resolvedAddress ∧
      body.currentConditions = processCurrentConditions current day0 ∧
      body.hourly = processHourlyForecast hourFmt day0.hours ∧
      body.hourly.length = day0.hours.length ∧
      body.daily = processDailyForecast dateFmt (p.days.take 7) ∧
      body.daily.length ≤ 7 := by
  by_cases hcf : falsyStr city = true
  · exfalso
    simp [getWeather, hcf] at h
  by_cases hdf : falsyStr district = true
  · exfalso
    simp [getWeather, hcf, hdf] at h
  have hcf2 : falsyStr city = false := by simpa using hcf
  have hdf2 : falsyStr district = false := by simpa using hdf
  have main : ∀ (p1 : WeatherPayload),
      buildResponse hourFmt dateFmt p1 = some body →
      ∃ current day0 rest,
        p1.currentConditions = some current ∧
        p1.days = day0 :: rest ∧
        body.address = p1.resolvedAddress ∧
        body.currentConditions = processCurrentConditions current day0 ∧
        body.hourly = processHourlyForecast hourFmt day0.hours ∧
        body.hourly.length = day0.hours.length ∧
        body.daily = processDailyForecast dateFmt (p1.days.take 7) ∧
        body.daily.length ≤ 7 := by
    intro p1 hb
    rcases buildResponse_eq_some hb with ⟨current, day0, rest, hcc, hd0, hbody⟩
    refine ⟨current, day0, rest, hcc, hd0, ?_, ?_, ?_, ?_, ?_, ?_⟩
    · rw [hbody]
    · rw [hbody]
    · rw [hbody]
    · rw [hbody]
      exact processHourlyForecast_length hourFmt day0.hours
    · rw [hbody]
    · rw [hbody]
      exact le_trans (le_of_eq
        (processDailyForecast_length dateFmt (p1.days.take 7)))
        (take7_length_le p1.days)
  cases hp1 : provider (locationQuery (city.getD "")) with
  | throws =>
    exfalso
    simp [getWeather, hcf2, hdf2, hp1] at h
  | ok d1 =>
    have hretry : ∀ (hgoal : getWeather provider hourFmt dateFmt city
          district = (WeatherResult.success body, calls)),
        badPayload d1 = true →
        (match provider (locationQuery (city.getD "")) with
          | FetchResult.ok x => x
          | _ => none) = d1 →
        ∃ p, provider (locationQuery (district.getD "")) =
            FetchResult.ok (some p) ∧
          buildResponse hourFmt dateFmt p = some body := by
      intro hgoal hb1 _
      cases hp2 : provider (locationQuery (district.getD "")) with
      | throws =>
        exfalso
        cases d1 with
        | none => simp [getWeather, hcf2, hdf2, hp1, hp2] at hgoal
        | some p1 =>
          have he1 : hasErrorCode p1 = true := by
            simpa [badPayload] using hb1
          simp [getWeather, hcf2, hdf2, hp1, hp2, he1] at hgoal
      | ok d2 =>
        cases d2 with
        | none =>
          exfalso
          cases d1 with
          | none => simp [getWeather, hcf2, hdf2, hp1, hp2] at hgoal
          | some p1 =>
            have he1 : hasErrorCode p1 = true := by
              simpa [badPayload] using hb1
            simp [getWeather, hcf2, hdf2, hp1, hp2, he1] at hgoal
        | some p2 =>
          refine ⟨p2, rfl, ?_⟩
          by_cases he2 : hasErrorCode p2 = true
          · exfalso
            cases d1 with
            | none => simp [getWeather, hcf2, hdf2, hp1, hp2, he2] at hgoal
            | some p1 =>
              have he1 : hasErrorCode p1 = true := by
                simpa [badPayload] using hb1
              simp [getWeather, hcf2, hdf2, hp1, hp2, he1, he2] at hgoal
          · have he2f : hasErrorCode p2 = false := by simpa using he2
            cases hbr : buildResponse hourFmt dateFmt p2 with
            | none =>
              exfalso
              cases d1 with
              | none =>
                simp [getWeather, hcf2, hdf2, hp1, hp2, he2f, hbr] at hgoal
              | some p1 =>
                have he1 : hasErrorCode p1 = true := by
                  simpa [badPayload] using hb1
                simp [getWeather, hcf2, hdf2, hp1, hp2, he1, he2f, hbr]
                  at hgoal
            | some b =>
              have hbb : b = body := by
                cases d1 with
                | none =>
                  simp [getWeather, hcf2, hdf2, hp1, hp2, he2f, hbr] at hgoal
                  exact hgoal.1
                | some p1 =>
                  have he1 : hasErrorCode p1 = true := by
                    simpa [badPayload] using hb1
                  simp [getWeather, hcf2, hdf2, hp1, hp2, he1, he2f, hbr]
                    at hgoal
                  exact hgoal.1
              rw [hbb]
    by_cases hb1 : badPayload d1 = true
    · rcases hretry h hb1 (by rw [hp1]) with ⟨p2, hp2, hbres⟩
      rcases main p2 hbres with ⟨current, day0, rest, hrest⟩
      exact ⟨p2, current, day0, rest, Or.inr hp2, hrest⟩
    · have hb1f : badPayload d1 = false := by simpa using hb1
      rcases d1 with _ | p1
      · simp [badPayload] at hb1f
      · have he1f : hasErrorCode p1 = false := by
          simpa [badPayload] using hb1f
        cases hbr : buildResponse hourFmt dateFmt p1 with
        | none =>
          exfalso
          simp [getWeather, hcf2, hdf2, hp1, he1f, hbr] at h
        | some b =>
          have hbb : b = body := by
            simp [getWeather, hcf2, hdf2, hp1, he1f, hbr] at h
            exact h.1
          have hbres : buildResponse hourFmt dateFmt p1 = some body := by
            rw [hbr, hbb]
          rcases main p1 hbres with ⟨current, day0, rest, hrest⟩
          exact ⟨p1, current, day0, rest, Or.inl rfl, hrest⟩

theorem getWeather_success_shape_witness :
    ∃ p : WeatherPayload, ∃ current : CurrentRec, ∃ day0 : DayRec,
    ∃ rest : List DayRec,
      ((fun _ => FetchResult.ok (some samplePayload))
        (locationQuery ((some "Chennai").getD "")) =
          FetchResult.ok (some p) ∨
       (fun _ => FetchResult.ok (some samplePayload))
        (locationQuery ((some "Madurai").getD "")) =
          FetchResult.ok (some p)) ∧
      p.currentConditions = some current ∧
      p.days = day0 :: rest ∧
      (getWeather (fun _ => FetchResult.ok (some samplePayload))
        (fun _ => "h") (fun _ => "d") (some "Chennai")
        (some "Madurai")).1 = WeatherResult.success
          ⟨p.resolvedAddress, processCurrentConditions current day0,
           processHourlyForecast (fun _ => "h") day0.hours,
           processDailyForecast (fun _ => "d") (p.days.take 7)⟩ ∧
      (processHourlyForecast (fun _ => "h") day0.hours).length =
        day0.hours.length ∧
      (processDailyForecast (fun _ => "d") (p.days.take 7)).length ≤ 7 := by
  rcases getWeather_success_shape
      (fun _ => FetchResult.ok (some samplePayload)) (fun _ => "h")
      (fun _ => "d") (some "Chennai") (some "Madurai")
      ⟨samplePayload.resolvedAddress,
       processCurrentConditions sampleCurrent sampleDay,
       processHourlyForecast (fun _ => "h") sampleDay.hours,
       processDailyForecast (fun _ => "d") (samplePayload.days.take 7)⟩
      [locationQuery "Chennai"] rfl with
    ⟨p, current, day0, rest, hor, hcc, hd0, ha, hc2, hh, hhl, hd2, hdl⟩
  exact ⟨p, current, day0, rest, hor, hcc, hd0,
    by rw [← ha, ← hc2, ← hh, ← hd2]; rfl,
    by rw [← hh]; exact hhl, by rw [← hd2]; exact hdl⟩

end TNWeather
